import Mathlib

/-!
# Log-normal income model: verification of the specified properties

This file embeds the numeric core of the two scripts `app.py` and `App2.py`
(a log-normal model of Canadian income with range-probability queries) as
Lean definitions over the real numbers, and proves or refutes the stated
properties of that core.

`app.py` evaluates the model through `scipy.stats.lognorm` (whose pdf/cdf
are the textbook log-normal density and the standard normal CDF applied to
`(ln x - ln scale) / s`, with value `0` on `x ≤ 0`); `App2.py` hand-rolls
the density and a tanh-based approximation of the CDF.
-/

open MeasureTheory Filter Set

noncomputable section

/-- Density of the standard normal distribution. -/
def stdNormalPDF (t : ℝ) : ℝ := (Real.sqrt (2 * Real.pi))⁻¹ * Real.exp (-t ^ 2 / 2)

/-- Cumulative distribution function of the standard normal distribution,
as the integral of `stdNormalPDF` over `(-∞, z]`. -/
def stdNormalCDF (z : ℝ) : ℝ := ∫ t in Iic z, stdNormalPDF t

/-- The log-normal probability density with shape `s` and scale `scale`, as
computed by `scipy.stats.lognorm.pdf` in `app.py` (the library returns `0`
outside the support `x > 0`). -/
def scipy_lognorm_pdf (x s scale : ℝ) : ℝ :=
  if x ≤ 0 then 0
  else 1 / (x * s * Real.sqrt (2 * Real.pi)) *
    Real.exp (-(Real.log x - Real.log scale) ^ 2 / (2 * s ^ 2))

/-- The log-normal cumulative distribution with shape `s` and scale `scale`,
as computed by `scipy.stats.lognorm.cdf` in `app.py`: the standard normal
CDF evaluated at `(ln x - ln scale) / s`, and `0` on `x ≤ 0`. -/
def scipy_lognorm_cdf (x s scale : ℝ) : ℝ :=
  if x ≤ 0 then 0 else stdNormalCDF ((Real.log x - Real.log scale) / s)

/-- Embedding of `numpy.linspace start stop num`: `num` evenly spaced samples from
`start` to `stop` inclusive. -/
def linspace (start stop : ℝ) (num : ℕ) : List ℝ :=
  (List.range num).map (fun i : ℕ => start + (stop - start) * (i : ℝ) / ((num : ℝ) - 1))

/-- The density formula as written in the specification:
`f(x) = 1 / (x·σ·sqrt(2π)) · exp( -(ln(x) - ln(scale))² / (2σ²) )`. -/
def spec_density (x s scale : ℝ) : ℝ :=
  1 / (x * s * Real.sqrt (2 * Real.pi)) *
    Real.exp (-(Real.log x - Real.log scale) ^ 2 / (2 * s ^ 2))

namespace App

/-- From `app.py` line 10: mean of log income. -/
def mu : ℝ := 10.45

/-- From `app.py` line 11: standard deviation of log income. -/
def sigma : ℝ := 0.95

/-- From `app.py` line 12: reference population. -/
def total_population : ℝ := 20000000

/-- From `app.py` line 15: `income_range = np.linspace(0, 300000, 1000)`. -/
def income_range : List ℝ := linspace 0 300000 1000

/-- From `app.py` line 16: `pdf_values = lognorm.pdf(income_range, sigma, scale=np.exp(mu))`. -/
def pdf_values : List ℝ := income_range.map (fun x => scipy_lognorm_pdf x sigma (Real.exp mu))

/-- From `app.py` line 17: `cdf_values = lognorm.cdf(income_range, sigma, scale=np.exp(mu))`. -/
def cdf_values : List ℝ := income_range.map (fun x => scipy_lognorm_cdf x sigma (Real.exp mu))

/-- From `app.py` line 25: `prob_between = lognorm.cdf(max_income, ...) - lognorm.cdf(min_income, ...)`. -/
def prob_between (min_income max_income : ℝ) : ℝ :=
  scipy_lognorm_cdf max_income sigma (Real.exp mu) -
    scipy_lognorm_cdf min_income sigma (Real.exp mu)

/-- From `app.py` line 26: `num_people = prob_between * total_population`. -/
def num_people (min_income max_income : ℝ) : ℝ :=
  prob_between min_income max_income * total_population

/-- From `app.py` line 27: `percentage = prob_between * 100`. -/
def percentage (min_income max_income : ℝ) : ℝ :=
  prob_between min_income max_income * 100

end App

namespace App2

/-- From `App2.py` line 12: `total_pop = 20_000_000`. -/
def total_pop : ℝ := 20000000

/-- From `App2.py` line 13: `income_range = np.linspace(1, 300_000, 1000)`. -/
def income_range : List ℝ := linspace 1 300000 1000

/-- From `App2.py` line 16: `mu = 10.45`. -/
def mu : ℝ := 10.45

/-- From `App2.py` line 16: `sigma = 0.95`. -/
def sigma : ℝ := 0.95

/-- From `App2.py` line 17: `scale = np.exp(mu)`. -/
def scale : ℝ := Real.exp mu

/-- From `App2.py` lines 19-20: hand-rolled log-normal density. -/
def lognorm_pdf (x s scale : ℝ) : ℝ :=
  1 / (x * s * Real.sqrt (2 * Real.pi)) *
    Real.exp (-(Real.log x - Real.log scale) ^ 2 / (2 * s ^ 2))

/-- From `App2.py` lines 22-24: hand-rolled tanh-based approximation of the
log-normal CDF:
`z = (log x - log scale) / s`;
`0.5 * (1 + tanh(sqrt 2 * z / 2) + sqrt (2 / pi) * exp (-z² / 2))`. -/
def lognorm_cdf (x s scale : ℝ) : ℝ :=
  let z := (Real.log x - Real.log scale) / s
  0.5 * (1 + Real.tanh (Real.sqrt 2 * z / 2) +
    Real.sqrt (2 / Real.pi) * Real.exp (-z ^ 2 / 2))

/-- From `App2.py` line 27: `pdf = lognorm_pdf(income_range, sigma, scale)`. -/
def pdf : List ℝ := income_range.map (fun x => lognorm_pdf x sigma scale)

/-- From `App2.py` line 28: `cdf = lognorm_cdf(income_range, sigma, scale)`. -/
def cdf : List ℝ := income_range.map (fun x => lognorm_cdf x sigma scale)

/-- From `App2.py` line 37: `prob = lognorm_cdf(max_income, sigma, scale) - lognorm_cdf(min_income, sigma, scale)`. -/
def prob (min_income max_income : ℝ) : ℝ :=
  lognorm_cdf max_income sigma scale - lognorm_cdf min_income sigma scale

/-- From `App2.py` line 38: `people = prob * total_pop`. -/
def people (min_income max_income : ℝ) : ℝ :=
  prob min_income max_income * total_pop

/-- From `App2.py` line 39: `percent = prob * 100`. -/
def percent (min_income max_income : ℝ) : ℝ :=
  prob min_income max_income * 100

end App2

/-- Concrete income `exp(μ - 3σ√2)`: about 600 $, used as a low bound. -/
def xLow : ℝ := Real.exp (10.45 - 0.95 * (3 * Real.sqrt 2))

/-- Concrete income `exp(μ + σ√2)`: about 132,000 $, close to the spot where
`App2.py`'s tanh-based cdf peaks above 1. -/
def xMid : ℝ := Real.exp (10.45 + 0.95 * Real.sqrt 2)

/-- Concrete income `exp(μ + 3σ√2)`: about 1.9 M$, in the upper tail. -/
def xHigh : ℝ := Real.exp (10.45 + 0.95 * (3 * Real.sqrt 2))

/-- The spec's far-tail probe `10 × scale × exp(5σ)` with `μ = 10.45`,
`σ = 0.95`. -/
def xStar : ℝ := 10 * Real.exp 10.45 * Real.exp (5 * 0.95)

end

theorem stdNormalPDF_pos (t : ℝ) : 0 < stdNormalPDF t := by
  unfold stdNormalPDF
  have h : 0 < Real.sqrt (2 * Real.pi) := Real.sqrt_pos.2 (by positivity)
  positivity

theorem stdNormalPDF_eq (t : ℝ) :
    stdNormalPDF t = (Real.sqrt (2 * Real.pi))⁻¹ * Real.exp (-(1 / 2 : ℝ) * t ^ 2) := by
  unfold stdNormalPDF
  ring_nf

theorem integrable_stdNormalPDF : Integrable stdNormalPDF := by
  have h : Integrable (fun t : ℝ => Real.exp (-(1 / 2 : ℝ) * t ^ 2)) :=
    integrable_exp_neg_mul_sq (by norm_num)
  have h2 := h.const_mul ((Real.sqrt (2 * Real.pi))⁻¹)
  refine h2.congr ?_
  filter_upwards with t
  rw [stdNormalPDF_eq]

theorem integral_stdNormalPDF : ∫ t, stdNormalPDF t = 1 := by
  have h : ∫ t : ℝ, Real.exp (-(1 / 2 : ℝ) * t ^ 2) = Real.sqrt (Real.pi / (1 / 2)) :=
    integral_gaussian (1 / 2)
  have hform : ∫ t, stdNormalPDF t =
      (Real.sqrt (2 * Real.pi))⁻¹ * ∫ t : ℝ, Real.exp (-(1 / 2 : ℝ) * t ^ 2) := by
    rw [← integral_mul_left]
    congr 1
    funext t
    rw [stdNormalPDF_eq]
  rw [hform, h, show Real.pi / (1 / 2 : ℝ) = 2 * Real.pi by ring]
  exact inv_mul_cancel₀ (Real.sqrt_pos.2 (by positivity)).ne'

theorem stdNormalCDF_nonneg (z : ℝ) : 0 ≤ stdNormalCDF z :=
  setIntegral_nonneg measurableSet_Iic fun t _ => (stdNormalPDF_pos t).le

theorem stdNormalCDF_le_one (z : ℝ) : stdNormalCDF z ≤ 1 := by
  rw [← integral_stdNormalPDF]
  exact setIntegral_le_integral integrable_stdNormalPDF
    (Eventually.of_forall fun t => (stdNormalPDF_pos t).le)

theorem stdNormalCDF_mono {a b : ℝ} (h : a ≤ b) : stdNormalCDF a ≤ stdNormalCDF b := by
  apply setIntegral_mono_set integrable_stdNormalPDF.integrableOn
    (Eventually.of_forall fun t => (stdNormalPDF_pos t).le)
  exact HasSubset.Subset.eventuallyLE (Iic_subset_Iic.2 h)

theorem stdNormalCDF_strictMono {a b : ℝ} (h : a < b) : stdNormalCDF a < stdNormalCDF b := by
  have hdiff : stdNormalCDF b - stdNormalCDF a = ∫ t in a..b, stdNormalPDF t :=
    intervalIntegral.integral_Iic_sub_Iic integrable_stdNormalPDF.integrableOn
      integrable_stdNormalPDF.integrableOn
  have hpos : 0 < ∫ t in a..b, stdNormalPDF t :=
    intervalIntegral.intervalIntegral_pos_of_pos
      integrable_stdNormalPDF.intervalIntegrable stdNormalPDF_pos h
  unfold stdNormalCDF at hdiff ⊢
  linarith

theorem stdNormalCDF_zero : stdNormalCDF 0 = 1 / 2 := by
  have heven : ∀ t : ℝ, stdNormalPDF (-t) = stdNormalPDF t := by
    intro t
    unfold stdNormalPDF
    rw [neg_pow]
    norm_num
  have hflip := integral_comp_neg_Iic (0 : ℝ) stdNormalPDF
  simp only [neg_zero] at hflip
  have heq : ∫ x in Iic (0:ℝ), stdNormalPDF (-x) = ∫ x in Iic (0:ℝ), stdNormalPDF x := by
    simp only [heven]
  have h1 : stdNormalCDF 0 = ∫ t in Ioi (0:ℝ), stdNormalPDF t := by
    unfold stdNormalCDF
    rw [← hflip, heq]
  have h2 := intervalIntegral.integral_Iic_add_Ioi (b := (0:ℝ))
    integrable_stdNormalPDF.integrableOn integrable_stdNormalPDF.integrableOn
  rw [integral_stdNormalPDF] at h2
  unfold stdNormalCDF at h1 ⊢
  linarith

theorem integral_exp_neg_mul_Ioi {b : ℝ} (a : ℝ) (hb : 0 < b) :
    ∫ t in Ioi a, Real.exp (-(b * t)) = Real.exp (-(b * a)) / b := by
  have hderiv : ∀ x ∈ Ici a,
      HasDerivAt (fun t => -Real.exp (-(b * t)) / b) (Real.exp (-(b * x))) x := by
    intro x _
    have h1 : HasDerivAt (fun t : ℝ => -(b * t)) (-b) x := by
      have h0 := (hasDerivAt_id x).const_mul (-b)
      simp only [mul_one, id_eq] at h0
      convert h0 using 1
      funext t
      ring
    have h2 := h1.exp
    have h3 := (h2.div_const b).neg
    convert h3 using 1
    · funext t
      ring
    · field_simp
  have hint : IntegrableOn (fun t : ℝ => Real.exp (-(b * t))) (Ioi a) := by
    have h := exp_neg_integrableOn_Ioi a hb
    refine h.congr_fun ?_ measurableSet_Ioi
    intro x _
    ring_nf
  have htend : Tendsto (fun t => -Real.exp (-(b * t)) / b) atTop (nhds 0) := by
    have h1 : Tendsto (fun t : ℝ => b * t) atTop atTop :=
      Tendsto.const_mul_atTop hb tendsto_id
    have h2 : Tendsto (fun t : ℝ => -(b * t)) atTop atBot := tendsto_neg_atTop_atBot.comp h1
    have h3 : Tendsto (fun t : ℝ => Real.exp (-(b * t))) atTop (nhds 0) :=
      Real.tendsto_exp_atBot.comp h2
    have h4 : Tendsto (fun x : ℝ => -(Real.exp (-(b * x)) / b)) atTop (nhds 0) := by
      simpa using (h3.div_const b).neg
    have h5 : (fun x : ℝ => -(Real.exp (-(b * x)) / b)) =
        fun t : ℝ => -Real.exp (-(b * t)) / b := by
      funext t
      ring
    rw [h5] at h4
    exact h4
  have hres := MeasureTheory.integral_Ioi_of_hasDerivAt_of_tendsto' hderiv hint htend
  rw [hres]
  ring

theorem gauss_tail_le {z : ℝ} (hz : 0 < z) :
    ∫ t in Ioi z, stdNormalPDF t ≤
      (Real.sqrt (2 * Real.pi))⁻¹ * (Real.exp (-(z * z) / 2) * (2 / z)) := by
  have hC : (0:ℝ) ≤ (Real.sqrt (2 * Real.pi))⁻¹ := by positivity
  have hbound : ∀ t ∈ Ioi z, stdNormalPDF t ≤
      (Real.sqrt (2 * Real.pi))⁻¹ * Real.exp (-(z / 2 * t)) := by
    intro t ht
    have htz : z < t := mem_Ioi.1 ht
    unfold stdNormalPDF
    have h1 : -t ^ 2 / 2 ≤ -(z / 2 * t) := by nlinarith
    exact mul_le_mul_of_nonneg_left (Real.exp_le_exp.2 h1) hC
  have hint2 : IntegrableOn
      (fun t : ℝ => (Real.sqrt (2 * Real.pi))⁻¹ * Real.exp (-(z / 2 * t))) (Ioi z) := by
    have h := exp_neg_integrableOn_Ioi z (half_pos hz)
    have h2 : IntegrableOn (fun t : ℝ => Real.exp (-(z / 2 * t))) (Ioi z) := by
      refine h.congr_fun ?_ measurableSet_Ioi
      intro x _
      ring_nf
    exact h2.const_mul _
  calc ∫ t in Ioi z, stdNormalPDF t
      ≤ ∫ t in Ioi z, (Real.sqrt (2 * Real.pi))⁻¹ * Real.exp (-(z / 2 * t)) :=
        setIntegral_mono_on integrable_stdNormalPDF.integrableOn hint2 measurableSet_Ioi hbound
    _ = (Real.sqrt (2 * Real.pi))⁻¹ * ∫ t in Ioi z, Real.exp (-(z / 2 * t)) :=
        integral_mul_left _ _
    _ = (Real.sqrt (2 * Real.pi))⁻¹ * (Real.exp (-(z / 2 * z)) / (z / 2)) := by
        rw [integral_exp_neg_mul_Ioi z (half_pos hz)]
    _ = (Real.sqrt (2 * Real.pi))⁻¹ * (Real.exp (-(z * z) / 2) * (2 / z)) := by
        rw [show -(z / 2 * z) = -(z * z) / 2 by ring]
        rw [div_div_eq_mul_div]
        ring

theorem stdNormalCDF_split (z : ℝ) :
    stdNormalCDF z + ∫ t in Ioi z, stdNormalPDF t = 1 := by
  have h := intervalIntegral.integral_Iic_add_Ioi (b := z)
    integrable_stdNormalPDF.integrableOn integrable_stdNormalPDF.integrableOn
  rw [integral_stdNormalPDF] at h
  exact h

theorem stdNormalCDF_lower {z : ℝ} (hz : 0 < z) :
    1 - (Real.sqrt (2 * Real.pi))⁻¹ * (Real.exp (-(z * z) / 2) * (2 / z)) ≤ stdNormalCDF z := by
  have h1 := stdNormalCDF_split z
  have h2 := gauss_tail_le hz
  linarith

theorem tendsto_stdNormalCDF_atTop : Tendsto stdNormalCDF atTop (nhds 1) := by
  have hA : Tendsto (fun z : ℝ => Real.exp (-(z * z) / 2)) atTop (nhds 0) := by
    have h1 : Tendsto (fun z : ℝ => z * z) atTop atTop :=
      Tendsto.atTop_mul_atTop tendsto_id tendsto_id
    have h2 : Tendsto (fun z : ℝ => -(z * z) / 2) atTop atBot := by
      have hn := tendsto_neg_atTop_atBot.comp h1
      exact hn.atBot_div_const (by norm_num : (0:ℝ) < 2)
    exact Real.tendsto_exp_atBot.comp h2
  have hB : Tendsto (fun z : ℝ => 2 / z) atTop (nhds 0) :=
    Tendsto.div_atTop tendsto_const_nhds tendsto_id
  have hg : Tendsto (fun z : ℝ =>
      1 - (Real.sqrt (2 * Real.pi))⁻¹ * (Real.exp (-(z * z) / 2) * (2 / z)))
      atTop (nhds 1) := by
    have hprod := hA.mul hB
    rw [mul_zero] at hprod
    have hcm := hprod.const_mul ((Real.sqrt (2 * Real.pi))⁻¹)
    rw [mul_zero] at hcm
    have hfin := (tendsto_const_nhds (x := (1:ℝ)) (f := atTop)).sub hcm
    rw [sub_zero] at hfin
    exact hfin
  apply tendsto_of_tendsto_of_tendsto_of_le_of_le' hg tendsto_const_nhds
  · filter_upwards [Ioi_mem_atTop (0:ℝ)] with z hz
    exact stdNormalCDF_lower (mem_Ioi.1 hz)
  · filter_upwards with z
    exact stdNormalCDF_le_one z

/-- Hyperbolic tangent written in terms of `exp`. -/
theorem tanh_formula (x : ℝ) : Real.tanh x = (Real.exp (2 * x) - 1) / (Real.exp (2 * x) + 1) := by
  rw [Real.tanh_eq_sinh_div_cosh, Real.sinh_eq, Real.cosh_eq, Real.exp_neg]
  have h1 : Real.exp x ≠ 0 := (Real.exp_pos x).ne'
  have h2 : Real.exp (2 * x) = Real.exp x * Real.exp x := by
    rw [two_mul, Real.exp_add]
  have h3 : Real.exp x + (Real.exp x)⁻¹ ≠ 0 := by positivity
  have h4 : Real.exp (2 * x) + 1 ≠ 0 := by positivity
  rw [h2]
  field_simp

/-- Hyperbolic tangent is bounded above by 1. -/
theorem tanh_lt_one' (x : ℝ) : Real.tanh x < 1 := by
  rw [tanh_formula]
  have h : (0:ℝ) < Real.exp (2 * x) + 1 := by positivity
  rw [div_lt_one h]
  linarith

/-- Hyperbolic tangent is monotone. -/
theorem tanh_mono (x y : ℝ) (h : x ≤ y) : Real.tanh x ≤ Real.tanh y := by
  rw [tanh_formula, tanh_formula]
  have hx : (0:ℝ) < Real.exp (2 * x) + 1 := by positivity
  have hy : (0:ℝ) < Real.exp (2 * y) + 1 := by positivity
  have hxy : Real.exp (2 * x) ≤ Real.exp (2 * y) := Real.exp_le_exp.2 (by linarith)
  rw [div_le_div_iff₀ hx hy]
  nlinarith

theorem exp_two_gt : (7.389 : ℝ) < Real.exp 2 := by
  have h := Real.exp_one_gt_d9
  have h2 : Real.exp 2 = Real.exp 1 * Real.exp 1 := by
    rw [← Real.exp_add]; norm_num
  nlinarith

theorem exp_two_lt : Real.exp 2 < 7.39 := by
  have h := Real.exp_one_lt_d9
  have hp := Real.exp_pos 1
  have h2 : Real.exp 2 = Real.exp 1 * Real.exp 1 := by
    rw [← Real.exp_add]; norm_num
  nlinarith

theorem exp_six_gt : (403 : ℝ) < Real.exp 6 := by
  have h := Real.exp_one_gt_d9
  have h6 : Real.exp 6 = Real.exp 1 ^ (6 : ℕ) := by
    rw [← Real.exp_nat_mul]; norm_num
  have hp : (2.7182818283 : ℝ) ^ (6 : ℕ) < Real.exp 1 ^ (6 : ℕ) :=
    pow_lt_pow_left₀ h (by norm_num) (by norm_num)
  have : (403 : ℝ) < 2.7182818283 ^ (6 : ℕ) := by norm_num
  linarith [h6 ▸ hp]

theorem exp_nine_gt : (8103 : ℝ) < Real.exp 9 := by
  have h := Real.exp_one_gt_d9
  have h9 : Real.exp 9 = Real.exp 1 ^ (9 : ℕ) := by
    rw [← Real.exp_nat_mul]; norm_num
  have hp : (2.7182818283 : ℝ) ^ (9 : ℕ) < Real.exp 1 ^ (9 : ℕ) :=
    pow_lt_pow_left₀ h (by norm_num) (by norm_num)
  have : (8103 : ℝ) < 2.7182818283 ^ (9 : ℕ) := by norm_num
  linarith [h9 ▸ hp]

theorem exp_ten_gt : (22026 : ℝ) < Real.exp 10 := by
  have h := Real.exp_one_gt_d9
  have h10 : Real.exp 10 = Real.exp 1 ^ (10 : ℕ) := by
    rw [← Real.exp_nat_mul]; norm_num
  have hp : (2.7182818283 : ℝ) ^ (10 : ℕ) < Real.exp 1 ^ (10 : ℕ) :=
    pow_lt_pow_left₀ h (by norm_num) (by norm_num)
  have : (22026 : ℝ) < 2.7182818283 ^ (10 : ℕ) := by norm_num
  linarith [h10 ▸ hp]

theorem tanh_one_gt : (0.7615 : ℝ) < Real.tanh 1 := by
  rw [tanh_formula]
  have hp : (0:ℝ) < Real.exp (2 * 1) + 1 := by positivity
  rw [lt_div_iff₀ hp]
  norm_num
  nlinarith [exp_two_gt]

theorem tanh_three_gt : (0.995 : ℝ) < Real.tanh 3 := by
  rw [tanh_formula]
  have hp : (0:ℝ) < Real.exp (2 * 3) + 1 := by positivity
  rw [lt_div_iff₀ hp]
  norm_num
  nlinarith [exp_six_gt]

theorem tanh_five_gt : (0.9999 : ℝ) < Real.tanh 5 := by
  rw [tanh_formula]
  have hp : (0:ℝ) < Real.exp (2 * 5) + 1 := by positivity
  rw [lt_div_iff₀ hp]
  norm_num
  nlinarith [exp_ten_gt]

theorem exp_neg_one_gt : (0.367879 : ℝ) < Real.exp (-1) := by
  have h := Real.exp_one_lt_d9
  have hp := Real.exp_pos 1
  rw [Real.exp_neg]
  rw [lt_inv_comm₀ (by norm_num) (by positivity)]
  calc Real.exp 1 < 2.7182818286 := h
    _ < 0.367879⁻¹ := by norm_num

theorem exp_neg_nine_lt : Real.exp (-9) < 0.000124 := by
  have h := exp_nine_gt
  have hp := Real.exp_pos 9
  rw [Real.exp_neg]
  rw [inv_lt_comm₀ hp (by norm_num)]
  calc (0.000124:ℝ)⁻¹ < 8103 := by norm_num
    _ < Real.exp 9 := h

theorem sqrt_two_div_pi_gt : (0.7978 : ℝ) < Real.sqrt (2 / Real.pi) := by
  have hpi := Real.pi_pos
  have hlt := Real.pi_lt_d4
  rw [show (0.7978:ℝ) = Real.sqrt (0.7978 ^ 2) by
    rw [Real.sqrt_sq]; norm_num]
  apply Real.sqrt_lt_sqrt (by norm_num)
  rw [lt_div_iff₀ hpi]
  nlinarith

theorem sqrt_two_div_pi_lt_one : Real.sqrt (2 / Real.pi) < 1 := by
  have hpi := Real.pi_gt_three
  rw [show (1:ℝ) = Real.sqrt 1 by rw [Real.sqrt_one]]
  apply Real.sqrt_lt_sqrt (by positivity)
  rw [div_lt_one (by linarith)]
  linarith

/-- The key numeric fact behind the misbehaviour of `App2.py`'s cdf: the sum
of its values' slack at `z = √2` and `z = -3√2` exceeds 2. -/
theorem core_ineq :
    2 < Real.tanh 1 + Real.tanh 3 + Real.sqrt (2 / Real.pi) * (Real.exp (-1) - Real.exp (-9)) := by
  have h1 := tanh_one_gt
  have h2 := tanh_three_gt
  have h3 := sqrt_two_div_pi_gt
  have h4 := exp_neg_one_gt
  have h5 := exp_neg_nine_lt
  have h6 := Real.exp_pos (-9)
  have h7 : (0.367755 : ℝ) < Real.exp (-1) - Real.exp (-9) := by linarith
  nlinarith

/-- Closed form of `App2.py`'s cdf along the reparametrisation
`x = exp(10.45 + 0.95 t)` (so that `z = t`). -/
theorem App2.lognorm_cdf_eval (t : ℝ) :
    App2.lognorm_cdf (Real.exp (10.45 + 0.95 * t)) App2.sigma App2.scale =
      0.5 * (1 + Real.tanh (Real.sqrt 2 * t / 2) +
        Real.sqrt (2 / Real.pi) * Real.exp (-t ^ 2 / 2)) := by
  unfold App2.lognorm_cdf App2.scale App2.sigma App2.mu
  rw [Real.log_exp, Real.log_exp]
  have hz : (10.45 + 0.95 * t - 10.45) / (0.95:ℝ) = t := by ring
  rw [hz]

theorem App2.cdf_at_xMid :
    App2.lognorm_cdf xMid App2.sigma App2.scale =
      0.5 * (1 + Real.tanh 1 + Real.sqrt (2 / Real.pi) * Real.exp (-1)) := by
  unfold xMid
  rw [App2.lognorm_cdf_eval]
  rw [show Real.sqrt 2 * Real.sqrt 2 / 2 = 1 by
    rw [Real.mul_self_sqrt (by norm_num)]; norm_num]
  rw [show -Real.sqrt 2 ^ 2 / 2 = -1 by
    rw [Real.sq_sqrt (by norm_num : (0:ℝ) ≤ 2)]; norm_num]

theorem App2.cdf_at_xHigh :
    App2.lognorm_cdf xHigh App2.sigma App2.scale =
      0.5 * (1 + Real.tanh 3 + Real.sqrt (2 / Real.pi) * Real.exp (-9)) := by
  unfold xHigh
  rw [App2.lognorm_cdf_eval]
  rw [show Real.sqrt 2 * (3 * Real.sqrt 2) / 2 = 3 by
    rw [show Real.sqrt 2 * (3 * Real.sqrt 2) = 3 * (Real.sqrt 2 * Real.sqrt 2) by ring,
      Real.mul_self_sqrt (by norm_num)]; norm_num]
  rw [show -(3 * Real.sqrt 2) ^ 2 / 2 = -9 by
    rw [mul_pow, Real.sq_sqrt (by norm_num : (0:ℝ) ≤ 2)]; norm_num]

theorem App2.cdf_at_xLow :
    App2.lognorm_cdf xLow App2.sigma App2.scale =
      0.5 * (1 - Real.tanh 3 + Real.sqrt (2 / Real.pi) * Real.exp (-9)) := by
  unfold xLow
  rw [show (10.45:ℝ) - 0.95 * (3 * Real.sqrt 2) = 10.45 + 0.95 * (-(3 * Real.sqrt 2)) by ring]
  rw [App2.lognorm_cdf_eval]
  rw [show Real.sqrt 2 * -(3 * Real.sqrt 2) / 2 = -3 by
    rw [show Real.sqrt 2 * -(3 * Real.sqrt 2) = -(3 * (Real.sqrt 2 * Real.sqrt 2)) by ring,
      Real.mul_self_sqrt (by norm_num)]; norm_num]
  rw [show -(-(3 * Real.sqrt 2)) ^ 2 / 2 = -9 by
    rw [neg_pow, mul_pow, Real.sq_sqrt (by norm_num : (0:ℝ) ≤ 2)]; norm_num]
  rw [Real.tanh_neg]
  ring

/-- The range probability of `App2.py` from `xLow` to `xMid` exceeds 1. -/
theorem App2.prob_xLow_xMid_gt_one : 1 < App2.prob xLow xMid := by
  unfold App2.prob
  rw [App2.cdf_at_xMid, App2.cdf_at_xLow]
  nlinarith [core_ineq, tanh_lt_one' 3]

/-- C8: additivity of range probabilities is pure algebra of CDF differences. -/
theorem C8_range_additivity (a b c : ℝ) (hab : a ≤ b) (hbc : b ≤ c) :
    App.prob_between a b + App.prob_between b c = App.prob_between a c ∧
    App2.prob a b + App2.prob b c = App2.prob a c := by
  constructor <;> simp [App.prob_between, App2.prob]

/-- Witness for C8 at `(a, b, c) = (1, 2, 3)`. -/
theorem C8_range_additivity_witness :
    (1 : ℝ) ≤ 2 ∧ (2 : ℝ) ≤ 3 ∧
    (App.prob_between 1 2 + App.prob_between 2 3 = App.prob_between 1 3 ∧
      App2.prob 1 2 + App2.prob 2 3 = App2.prob 1 3) :=
  ⟨one_le_two, by norm_num, C8_range_additivity 1 2 3 one_le_two (by norm_num)⟩

/-- C9: the reported head count is the range probability times the fixed
total population 20,000,000, in both scripts. -/
theorem C9_head_count (low high : ℝ) (h : low ≤ high) :
    App.num_people low high = App.prob_between low high * 20000000 ∧
    App2.people low high = App2.prob low high * 20000000 := by
  exact ⟨rfl, rfl⟩

/-- Witness for C9 at `(low, high) = (1, 2)`. -/
theorem C9_head_count_witness :
    (1 : ℝ) ≤ 2 ∧
    (App.num_people 1 2 = App.prob_between 1 2 * 20000000 ∧
      App2.people 1 2 = App2.prob 1 2 * 20000000) :=
  ⟨one_le_two, C9_head_count 1 2 one_le_two⟩

/-- C10: every query operation of the embedded model is a pure function:
identical inputs give identical outputs. -/
theorem C10_determinism (x y low high low' high' : ℝ)
    (hx : x = y) (hl : low = low') (hh : high = high') :
    scipy_lognorm_pdf x App.sigma (Real.exp App.mu) =
      scipy_lognorm_pdf y App.sigma (Real.exp App.mu) ∧
    scipy_lognorm_cdf x App.sigma (Real.exp App.mu) =
      scipy_lognorm_cdf y App.sigma (Real.exp App.mu) ∧
    App2.lognorm_pdf x App2.sigma App2.scale = App2.lognorm_pdf y App2.sigma App2.scale ∧
    App2.lognorm_cdf x App2.sigma App2.scale = App2.lognorm_cdf y App2.sigma App2.scale ∧
    App.prob_between low high = App.prob_between low' high' ∧
    App.num_people low high = App.num_people low' high' ∧
    App2.prob low high = App2.prob low' high' ∧
    App2.people low high = App2.people low' high' := by
  subst hx hl hh
  exact ⟨rfl, rfl, rfl, rfl, rfl, rfl, rfl, rfl⟩

/-- Witness for C10 at equal concrete inputs. -/
theorem C10_determinism_witness :
    (1 : ℝ) = 1 ∧
    (scipy_lognorm_pdf 1 App.sigma (Real.exp App.mu) =
        scipy_lognorm_pdf 1 App.sigma (Real.exp App.mu) ∧
      scipy_lognorm_cdf 1 App.sigma (Real.exp App.mu) =
        scipy_lognorm_cdf 1 App.sigma (Real.exp App.mu) ∧
      App2.lognorm_pdf 1 App2.sigma App2.scale = App2.lognorm_pdf 1 App2.sigma App2.scale ∧
      App2.lognorm_cdf 1 App2.sigma App2.scale = App2.lognorm_cdf 1 App2.sigma App2.scale ∧
      App.prob_between 2 3 = App.prob_between 2 3 ∧
      App.num_people 2 3 = App.num_people 2 3 ∧
      App2.prob 2 3 = App2.prob 2 3 ∧
      App2.people 2 3 = App2.people 2 3) :=
  ⟨rfl, C10_determinism 1 1 2 3 2 3 rfl rfl rfl⟩

/-- C1 counterexample: `App2.py`'s tanh-based cdf is NOT monotone: at the
concrete incomes `xMid < xHigh` it strictly decreases. -/
theorem C1_counterexample :
    0 < xMid ∧ xMid < xHigh ∧
      App2.lognorm_cdf xHigh App2.sigma App2.scale <
        App2.lognorm_cdf xMid App2.sigma App2.scale := by
  refine ⟨Real.exp_pos _, ?_, ?_⟩
  · unfold xMid xHigh
    apply Real.exp_lt_exp.2
    nlinarith [Real.sqrt_pos.2 (by norm_num : (0:ℝ) < 2)]
  · rw [App2.cdf_at_xMid, App2.cdf_at_xHigh]
    nlinarith [core_ineq, tanh_lt_one' 3]

/-- C2 counterexample: for the valid range `xLow ≤ xMid`, `App2.py` reports a
range probability above 1 and a percentage above 100. -/
theorem C2_counterexample :
    xLow ≤ xMid ∧ 1 < App2.prob xLow xMid ∧ 100 < App2.percent xLow xMid := by
  have hp := App2.prob_xLow_xMid_gt_one
  refine ⟨?_, hp, ?_⟩
  · unfold xLow xMid
    apply Real.exp_le_exp.2
    nlinarith [Real.sqrt_pos.2 (by norm_num : (0:ℝ) < 2)]
  · unfold App2.percent
    linarith

/-- Value of `App2.py`'s cdf at the scale `exp μ` (where `z = 0`). -/
theorem App2.cdf_at_scale :
    App2.lognorm_cdf App2.scale App2.sigma App2.scale
      = 0.5 * (1 + Real.sqrt (2 / Real.pi)) := by
  unfold App2.lognorm_cdf
  simp only [sub_self, zero_div, mul_zero, Real.tanh_zero]
  norm_num [Real.exp_zero]

/-- C3 counterexample: `App2.py`'s cdf evaluated at the scale `exp μ` is
`(1 + √(2/π))/2 ≈ 0.899`, not one half. -/
theorem C3_counterexample :
    App2.lognorm_cdf App2.scale App2.sigma App2.scale ≠ 1 / 2 := by
  rw [App2.cdf_at_scale]
  nlinarith [sqrt_two_div_pi_gt]

/-- C4 counterexample: invoked with `low = xMid > high = xLow`, `App2.py`'s
range-probability computation silently returns a negative value (and a
negative head count) instead of failing. -/
theorem C4_counterexample :
    xLow < xMid ∧ App2.prob xMid xLow < 0 ∧ App2.people xMid xLow < 0 := by
  have hp := App2.prob_xLow_xMid_gt_one
  have hneg : App2.prob xMid xLow = -App2.prob xLow xMid := by
    unfold App2.prob; ring
  refine ⟨?_, ?_, ?_⟩
  · unfold xLow xMid
    apply Real.exp_lt_exp.2
    nlinarith [Real.sqrt_pos.2 (by norm_num : (0:ℝ) < 2)]
  · rw [hneg]; linarith
  · unfold App2.people App2.total_pop
    rw [hneg]
    nlinarith

/-- Second form: `tanh x = 1 - 2 / (exp (2x) + 1)`. -/
theorem tanh_formula2 (x : ℝ) : Real.tanh x = 1 - 2 / (Real.exp (2 * x) + 1) := by
  rw [tanh_formula]
  have h : Real.exp (2 * x) + 1 ≠ 0 := by positivity
  field_simp
  ring

theorem tendsto_tanh_atTop : Tendsto Real.tanh atTop (nhds 1) := by
  have hexp : Tendsto (fun x : ℝ => Real.exp (2 * x) + 1) atTop atTop := by
    apply tendsto_atTop_add_const_right
    exact Real.tendsto_exp_atTop.comp
      ((tendsto_const_mul_atTop_of_pos (by norm_num : (0:ℝ) < 2)).2 tendsto_id)
  have hfrac : Tendsto (fun x : ℝ => 2 / (Real.exp (2 * x) + 1)) atTop (nhds 0) :=
    Tendsto.div_atTop tendsto_const_nhds hexp
  have h := (tendsto_const_nhds (x := (1:ℝ)) (f := atTop)).sub hfrac
  rw [sub_zero] at h
  exact h.congr fun x => (tanh_formula2 x).symm

theorem tendsto_tanh_atBot : Tendsto Real.tanh atBot (nhds (-1)) := by
  have hexp : Tendsto (fun x : ℝ => Real.exp (2 * x)) atBot (nhds 0) :=
    Real.tendsto_exp_atBot.comp
      ((tendsto_const_mul_atBot_of_pos (by norm_num : (0:ℝ) < 2)).2 tendsto_id)
  have hden : Tendsto (fun x : ℝ => Real.exp (2 * x) + 1) atBot (nhds 1) := by
    have h := hexp.add (tendsto_const_nhds (x := (1:ℝ)))
    rw [zero_add] at h
    exact h
  have hfrac : Tendsto (fun x : ℝ => 2 / (Real.exp (2 * x) + 1)) atBot (nhds 2) := by
    have h := (tendsto_const_nhds (x := (2:ℝ)) (f := atBot)).div hden one_ne_zero
    simpa using h
  have h := (tendsto_const_nhds (x := (1:ℝ)) (f := atBot)).sub hfrac
  norm_num at h
  exact h.congr fun x => (tanh_formula2 x).symm

theorem scipy_lognorm_cdf_nonneg (x s sc : ℝ) : 0 ≤ scipy_lognorm_cdf x s sc := by
  unfold scipy_lognorm_cdf
  split
  · exact le_refl 0
  · exact stdNormalCDF_nonneg _

theorem scipy_lognorm_cdf_le_one (x s sc : ℝ) : scipy_lognorm_cdf x s sc ≤ 1 := by
  unfold scipy_lognorm_cdf
  split
  · norm_num
  · exact stdNormalCDF_le_one _

theorem scipy_lognorm_cdf_mono {s : ℝ} (sc : ℝ) (hs : 0 < s) {x1 x2 : ℝ} (h : x1 ≤ x2) :
    scipy_lognorm_cdf x1 s sc ≤ scipy_lognorm_cdf x2 s sc := by
  unfold scipy_lognorm_cdf
  by_cases h1 : x1 ≤ 0
  · rw [if_pos h1]
    split
    · exact le_refl 0
    · exact stdNormalCDF_nonneg _
  · push_neg at h1
    rw [if_neg (not_le.2 h1), if_neg (not_le.2 (lt_of_lt_of_le h1 h))]
    apply stdNormalCDF_mono
    have hlog : Real.log x1 ≤ Real.log x2 := Real.log_le_log h1 h
    apply div_le_div_of_nonneg_right ?_ hs.le
    linarith

theorem scipy_lognorm_cdf_strict {s : ℝ} (sc : ℝ) (hs : 0 < s) {x1 x2 : ℝ}
    (h0 : 0 < x1) (h : x1 < x2) :
    scipy_lognorm_cdf x1 s sc < scipy_lognorm_cdf x2 s sc := by
  unfold scipy_lognorm_cdf
  rw [if_neg (not_le.2 h0), if_neg (not_le.2 (h0.trans h))]
  apply stdNormalCDF_strictMono
  have hlog : Real.log x1 < Real.log x2 := Real.log_lt_log h0 h
  apply div_lt_div_of_pos_right ?_ hs
  · linarith

/-- C1 (amended): the library-based cumulative of `app.py` IS monotonically
non-decreasing on positive incomes (the claim fails only for `App2.py`,
see the counterexample). -/
theorem C1_theorem (x1 x2 : ℝ) (h0 : 0 < x1) (h12 : x1 < x2) :
    scipy_lognorm_cdf x1 App.sigma (Real.exp App.mu) ≤
      scipy_lognorm_cdf x2 App.sigma (Real.exp App.mu) :=
  scipy_lognorm_cdf_mono (Real.exp App.mu) (by unfold App.sigma; norm_num) h12.le

/-- Witness for C1 at `(x1, x2) = (1, 2)`. -/
theorem C1_theorem_witness :
    (0:ℝ) < 1 ∧ (1:ℝ) < 2 ∧
      scipy_lognorm_cdf 1 App.sigma (Real.exp App.mu) ≤
        scipy_lognorm_cdf 2 App.sigma (Real.exp App.mu) :=
  ⟨one_pos, one_lt_two, C1_theorem 1 2 one_pos one_lt_two⟩

/-- C2 (amended): in `app.py` (exact log-normal CDF) the range probability
lies in `[0, 1]` and the derived percentage in `[0, 100]` for every valid
range; the claim fails only for `App2.py` (see the counterexample). -/
theorem C2_theorem (low high : ℝ) (h : low ≤ high) :
    0 ≤ App.prob_between low high ∧ App.prob_between low high ≤ 1 ∧
      0 ≤ App.percentage low high ∧ App.percentage low high ≤ 100 := by
  have hs : (0:ℝ) < App.sigma := by unfold App.sigma; norm_num
  have h1 := scipy_lognorm_cdf_mono (Real.exp App.mu) hs h
  have h2 := scipy_lognorm_cdf_nonneg low App.sigma (Real.exp App.mu)
  have h3 := scipy_lognorm_cdf_le_one high App.sigma (Real.exp App.mu)
  unfold App.percentage App.prob_between
  refine ⟨by linarith, by linarith, by linarith, by linarith⟩

/-- Witness for C2 at `(low, high) = (1, 2)`. -/
theorem C2_theorem_witness :
    (1:ℝ) ≤ 2 ∧
      (0 ≤ App.prob_between 1 2 ∧ App.prob_between 1 2 ≤ 1 ∧
        0 ≤ App.percentage 1 2 ∧ App.percentage 1 2 ≤ 100) :=
  ⟨one_le_two, C2_theorem 1 2 one_le_two⟩

/-- C3 (amended): `cumulative(exp μ) = 1/2` holds for the exact CDF of
`app.py`; `App2.py`'s tanh-based cdf instead yields `(1 + √(2/π))/2`. -/
theorem C3_theorem :
    scipy_lognorm_cdf (Real.exp App.mu) App.sigma (Real.exp App.mu) = 1 / 2 ∧
      App2.lognorm_cdf App2.scale App2.sigma App2.scale
        = (1 + Real.sqrt (2 / Real.pi)) / 2 := by
  constructor
  · unfold scipy_lognorm_cdf
    rw [if_neg (not_le.2 (Real.exp_pos _))]
    rw [sub_self, zero_div]
    exact stdNormalCDF_zero
  · rw [App2.cdf_at_scale]
    ring

/-- C4 (amended): neither script guards against `low > high`; the
computation returns `cumulative(high) - cumulative(low)` unconditionally,
which for `app.py` is strictly negative whenever `0 < high < low`, as is
the derived head count. -/
theorem C4_theorem (low high : ℝ) (h0 : 0 < high) (h : high < low) :
    App.prob_between low high < 0 ∧ App.num_people low high < 0 ∧
      App2.prob low high =
        App2.lognorm_cdf high App2.sigma App2.scale -
          App2.lognorm_cdf low App2.sigma App2.scale := by
  have hs : (0:ℝ) < App.sigma := by unfold App.sigma; norm_num
  have h1 := scipy_lognorm_cdf_strict (Real.exp App.mu) hs h0 h
  have hp : App.prob_between low high < 0 := by
    unfold App.prob_between
    linarith
  refine ⟨hp, ?_, rfl⟩
  unfold App.num_people App.total_population
  nlinarith

/-- Witness for C4 at `(low, high) = (2, 1)`. -/
theorem C4_theorem_witness :
    (0:ℝ) < 1 ∧ (1:ℝ) < 2 ∧
      (App.prob_between 2 1 < 0 ∧ App.num_people 2 1 < 0 ∧
        App2.prob 2 1 =
          App2.lognorm_cdf 1 App2.sigma App2.scale -
            App2.lognorm_cdf 2 App2.sigma App2.scale) :=
  ⟨one_pos, one_lt_two, C4_theorem 2 1 one_pos one_lt_two⟩

/-- C5: for positive incomes both implementations' densities equal the
spec's log-normal formula with `σ = 0.95` and `scale = exp 10.45`, and the
density is non-negative there. -/
theorem C5_density (x : ℝ) (hx : 0 < x) :
    App2.lognorm_pdf x App2.sigma App2.scale = spec_density x 0.95 (Real.exp 10.45) ∧
      scipy_lognorm_pdf x App.sigma (Real.exp App.mu) = spec_density x 0.95 (Real.exp 10.45) ∧
      0 ≤ spec_density x 0.95 (Real.exp 10.45) := by
  refine ⟨rfl, ?_, ?_⟩
  · unfold scipy_lognorm_pdf
    rw [if_neg (not_le.2 hx)]
    rfl
  · unfold spec_density
    have h1 : (0:ℝ) < Real.sqrt (2 * Real.pi) := Real.sqrt_pos.2 (by positivity)
    positivity

/-- Witness for C5 at `x = 1`. -/
theorem C5_density_witness :
    (0:ℝ) < 1 ∧
      (App2.lognorm_pdf 1 App2.sigma App2.scale = spec_density 1 0.95 (Real.exp 10.45) ∧
        scipy_lognorm_pdf 1 App.sigma (Real.exp App.mu) = spec_density 1 0.95 (Real.exp 10.45) ∧
        0 ≤ spec_density 1 0.95 (Real.exp 10.45)) :=
  ⟨one_pos, C5_density 1 one_pos⟩

/-- The first grid point of `app.py`'s `income_range` is exactly 0. -/
theorem zero_mem_App_income_range : (0:ℝ) ∈ App.income_range := by
  unfold App.income_range linspace
  rw [List.mem_map]
  refine ⟨0, List.mem_range.2 (by norm_num), ?_⟩
  norm_num

/-- C6 counterexample: `app.py`'s display grid does NOT consist of strictly
positive values: it contains 0, and the density series applies the density
function to it. -/
theorem C6_counterexample : ¬ ∀ x ∈ App.income_range, (0:ℝ) < x := by
  intro h
  exact lt_irrefl 0 (h 0 zero_mem_App_income_range)

/-- C6 (amended): `App2.py`'s grid is strictly positive, but `app.py`'s grid
contains 0, which is passed to the density evaluation; the library's
convention returns density 0 there, with no skipping or clamping. -/
theorem C6_theorem :
    (∀ x ∈ App2.income_range, (0:ℝ) < x) ∧
      (0:ℝ) ∈ App.income_range ∧
      scipy_lognorm_pdf 0 App.sigma (Real.exp App.mu) = 0 := by
  refine ⟨?_, zero_mem_App_income_range, ?_⟩
  · intro x hx
    unfold App2.income_range linspace at hx
    rw [List.mem_map] at hx
    obtain ⟨i, _, hfx⟩ := hx
    rw [← hfx]
    have hi : (0:ℝ) ≤ (i:ℝ) := Nat.cast_nonneg i
    have h2 : (0:ℝ) ≤ (300000 - 1) * (i:ℝ) / ((1000:ℝ) - 1) := by positivity
    norm_num
    linarith
  · unfold scipy_lognorm_pdf
    rw [if_pos le_rfl]

/-- The cdf of `App2.py` as an explicit function of the standardised variable. -/
theorem App2.lognorm_cdf_z (x : ℝ) :
    App2.lognorm_cdf x App2.sigma App2.scale =
      0.5 * (1 + Real.tanh (Real.sqrt 2 * ((Real.log x - 10.45) / 0.95) / 2) +
        Real.sqrt (2 / Real.pi) * Real.exp (-((Real.log x - 10.45) / 0.95) ^ 2 / 2)) := by
  unfold App2.lognorm_cdf App2.scale App2.sigma App2.mu
  rw [Real.log_exp]

theorem gApp2_tendsto_atBot :
    Tendsto (fun z : ℝ => 0.5 * (1 + Real.tanh (Real.sqrt 2 * z / 2) +
      Real.sqrt (2 / Real.pi) * Real.exp (-z ^ 2 / 2))) atBot (nhds 0) := by
  have hs2 : (0:ℝ) < Real.sqrt 2 := Real.sqrt_pos.2 (by norm_num)
  have harg : Tendsto (fun z : ℝ => Real.sqrt 2 * z / 2) atBot atBot := by
    have h1 : Tendsto (fun z : ℝ => Real.sqrt 2 * z) atBot atBot :=
      (tendsto_const_mul_atBot_of_pos hs2).2 tendsto_id
    exact h1.atBot_div_const (by norm_num)
  have htanh : Tendsto (fun z : ℝ => Real.tanh (Real.sqrt 2 * z / 2)) atBot (nhds (-1)) :=
    tendsto_tanh_atBot.comp harg
  have hsq : Tendsto (fun z : ℝ => z ^ 2) atBot atTop := by
    have h1 : Tendsto (fun z : ℝ => |z| ^ 2) atBot atTop :=
      (tendsto_pow_atTop (by norm_num : 2 ≠ 0)).comp tendsto_abs_atBot_atTop
    exact h1.congr fun z => sq_abs z
  have hexparg : Tendsto (fun z : ℝ => -z ^ 2 / 2) atBot atBot := by
    have h1 : Tendsto (fun z : ℝ => -z ^ 2) atBot atBot := tendsto_neg_atTop_atBot.comp hsq
    exact h1.atBot_div_const (by norm_num)
  have hexp : Tendsto (fun z : ℝ => Real.exp (-z ^ 2 / 2)) atBot (nhds 0) :=
    Real.tendsto_exp_atBot.comp hexparg
  have hS := hexp.const_mul (Real.sqrt (2 / Real.pi))
  rw [mul_zero] at hS
  have hsum := ((tendsto_const_nhds (x := (1:ℝ)) (f := atBot)).add htanh).add hS
  rw [show ((1:ℝ) + -1) + 0 = 0 by norm_num] at hsum
  have hfin := hsum.const_mul (0.5 : ℝ)
  rw [mul_zero] at hfin
  exact hfin

theorem gApp2_tendsto_atTop :
    Tendsto (fun z : ℝ => 0.5 * (1 + Real.tanh (Real.sqrt 2 * z / 2) +
      Real.sqrt (2 / Real.pi) * Real.exp (-z ^ 2 / 2))) atTop (nhds 1) := by
  have hs2 : (0:ℝ) < Real.sqrt 2 := Real.sqrt_pos.2 (by norm_num)
  have harg : Tendsto (fun z : ℝ => Real.sqrt 2 * z / 2) atTop atTop := by
    have h1 : Tendsto (fun z : ℝ => Real.sqrt 2 * z) atTop atTop :=
      (tendsto_const_mul_atTop_of_pos hs2).2 tendsto_id
    exact h1.atTop_div_const (by norm_num)
  have htanh : Tendsto (fun z : ℝ => Real.tanh (Real.sqrt 2 * z / 2)) atTop (nhds 1) :=
    tendsto_tanh_atTop.comp harg
  have hsq : Tendsto (fun z : ℝ => z ^ 2) atTop atTop :=
    tendsto_pow_atTop (by norm_num : 2 ≠ 0)
  have hexparg : Tendsto (fun z : ℝ => -z ^ 2 / 2) atTop atBot := by
    have h1 : Tendsto (fun z : ℝ => -z ^ 2) atTop atBot := tendsto_neg_atTop_atBot.comp hsq
    exact h1.atBot_div_const (by norm_num)
  have hexp : Tendsto (fun z : ℝ => Real.exp (-z ^ 2 / 2)) atTop (nhds 0) :=
    Real.tendsto_exp_atBot.comp hexparg
  have hS := hexp.const_mul (Real.sqrt (2 / Real.pi))
  rw [mul_zero] at hS
  have hsum := ((tendsto_const_nhds (x := (1:ℝ)) (f := atTop)).add htanh).add hS
  rw [show ((1:ℝ) + 1) + 0 = 2 by norm_num] at hsum
  have hfin := hsum.const_mul (0.5 : ℝ)
  rw [show (0.5:ℝ) * 2 = 1 by norm_num] at hfin
  exact hfin

theorem App2_cdf_tendsto_zero :
    Tendsto (fun x => App2.lognorm_cdf x App2.sigma App2.scale)
      (nhdsWithin 0 (Ioi 0)) (nhds 0) := by
  have hz : Tendsto (fun x : ℝ => (Real.log x - 10.45) / 0.95)
      (nhdsWithin 0 (Ioi 0)) atBot := by
    have h1 : Tendsto (fun x : ℝ => Real.log x - 10.45) (nhdsWithin 0 (Ioi 0)) atBot := by
      have h0 := tendsto_atBot_add_const_right _ (-10.45 : ℝ)
        Real.tendsto_log_nhdsWithin_zero_right
      exact h0.congr fun x => by ring
    exact h1.atBot_div_const (by norm_num)
  have hcomp := gApp2_tendsto_atBot.comp hz
  exact hcomp.congr fun x => (App2.lognorm_cdf_z x).symm

theorem App2_cdf_tendsto_one :
    Tendsto (fun x => App2.lognorm_cdf x App2.sigma App2.scale) atTop (nhds 1) := by
  have hz : Tendsto (fun x : ℝ => (Real.log x - 10.45) / 0.95) atTop atTop := by
    have h1 : Tendsto (fun x : ℝ => Real.log x - 10.45) atTop atTop := by
      have h0 := tendsto_atTop_add_const_right _ (-10.45 : ℝ) Real.tendsto_log_atTop
      exact h0.congr fun x => by ring
    exact h1.atTop_div_const (by norm_num)
  have hcomp := gApp2_tendsto_atTop.comp hz
  exact hcomp.congr fun x => (App2.lognorm_cdf_z x).symm

theorem App_cdf_tendsto_one :
    Tendsto (fun x => scipy_lognorm_cdf x App.sigma (Real.exp App.mu)) atTop (nhds 1) := by
  have hs : (0:ℝ) < App.sigma := by unfold App.sigma; norm_num
  have hz : Tendsto (fun x : ℝ => (Real.log x - Real.log (Real.exp App.mu)) / App.sigma)
      atTop atTop := by
    have h1 : Tendsto (fun x : ℝ => Real.log x - Real.log (Real.exp App.mu)) atTop atTop := by
      have h0 := tendsto_atTop_add_const_right _ (-(Real.log (Real.exp App.mu)))
        Real.tendsto_log_atTop
      exact h0.congr fun x => by ring
    exact h1.atTop_div_const hs
  have hcomp := tendsto_stdNormalCDF_atTop.comp hz
  apply hcomp.congr'
  filter_upwards [Ioi_mem_atTop (0:ℝ)] with x hx
  simp only [Function.comp]
  unfold scipy_lognorm_cdf
  rw [if_neg (not_le.2 (mem_Ioi.1 hx))]

theorem exp_twentyfour_gt : (2000 : ℝ) < Real.exp 24 := by
  have h := Real.exp_one_gt_d9
  have h24 : Real.exp 24 = Real.exp 1 ^ (24 : ℕ) := by
    rw [← Real.exp_nat_mul]; norm_num
  rw [h24]
  calc (2000:ℝ) < 2 ^ (24 : ℕ) := by norm_num
    _ ≤ Real.exp 1 ^ (24 : ℕ) := pow_le_pow_left₀ (by norm_num) (by linarith) 24

/-- Far-tail lower bound for the standard normal CDF: beyond `z = 7` the
CDF exceeds 0.999. -/
theorem stdNormalCDF_gt_of_ge_seven {z : ℝ} (hz : 7 ≤ z) : 0.999 < stdNormalCDF z := by
  have hz0 : (0:ℝ) < z := by linarith
  have hlower := stdNormalCDF_lower hz0
  have h1 : (Real.sqrt (2 * Real.pi))⁻¹ ≤ 1 := by
    have h2 : (1:ℝ) ≤ Real.sqrt (2 * Real.pi) := by
      rw [show (1:ℝ) = Real.sqrt 1 by rw [Real.sqrt_one]]
      exact Real.sqrt_le_sqrt (by nlinarith [Real.pi_gt_three])
    exact inv_le_one_of_one_le₀ h2
  have h2 : Real.exp (-(z * z) / 2) ≤ Real.exp (-24) := by
    apply Real.exp_le_exp.2
    nlinarith
  have h3 : 2 / z ≤ 1 := by
    rw [div_le_one hz0]
    linarith
  have hexp24 : Real.exp (-24) < 0.0005 := by
    rw [Real.exp_neg, inv_lt_comm₀ (Real.exp_pos _) (by norm_num)]
    calc (0.0005:ℝ)⁻¹ = 2000 := by norm_num
      _ < Real.exp 24 := exp_twentyfour_gt
  have hE05 : Real.exp (-(z * z) / 2) < 0.0005 := lt_of_le_of_lt h2 hexp24
  have hEpos : (0:ℝ) < Real.exp (-(z * z) / 2) := Real.exp_pos _
  have h2zpos : (0:ℝ) < 2 / z := by positivity
  have hprod1 : Real.exp (-(z * z) / 2) * (2 / z) ≤ 0.0005 * 1 :=
    mul_le_mul hE05.le h3 h2zpos.le (by norm_num)
  have hprod2 : (Real.sqrt (2 * Real.pi))⁻¹ * (Real.exp (-(z * z) / 2) * (2 / z))
      ≤ 1 * (0.0005 * 1) :=
    mul_le_mul h1 hprod1 (by positivity) (by norm_num)
  linarith

theorem App_cdf_zero : scipy_lognorm_cdf 0 App.sigma (Real.exp App.mu) = 0 := by
  unfold scipy_lognorm_cdf
  rw [if_pos le_rfl]

theorem log_xStar_eq : Real.log xStar = Real.log 10 + 10.45 + 4.75 := by
  unfold xStar
  rw [Real.log_mul (by positivity) (Real.exp_ne_zero _),
    Real.log_mul (by norm_num) (Real.exp_ne_zero _), Real.log_exp, Real.log_exp]
  norm_num

theorem log_ten_gt : (2:ℝ) < Real.log 10 := by
  rw [Real.lt_log_iff_exp_lt (by norm_num : (0:ℝ) < 10)]
  linarith [exp_two_lt]

theorem App_cdf_xStar : 0.999 < scipy_lognorm_cdf xStar App.sigma (Real.exp App.mu) := by
  have hxpos : (0:ℝ) < xStar := by unfold xStar; positivity
  unfold scipy_lognorm_cdf
  rw [if_neg (not_le.2 hxpos)]
  apply stdNormalCDF_gt_of_ge_seven
  unfold App.sigma App.mu
  rw [Real.log_exp, log_xStar_eq]
  rw [le_div_iff₀ (by norm_num : (0:ℝ) < 0.95)]
  linarith [log_ten_gt]

theorem sqrt_two_gt : (1.41 : ℝ) < Real.sqrt 2 := by
  rw [show (1.41:ℝ) = Real.sqrt (1.41 ^ 2) by rw [Real.sqrt_sq]; norm_num]
  exact Real.sqrt_lt_sqrt (by norm_num) (by norm_num)

theorem App2_cdf_xStar : 0.999 < App2.lognorm_cdf xStar App2.sigma App2.scale := by
  rw [App2.lognorm_cdf_z]
  have hw : (7.1:ℝ) ≤ (Real.log xStar - 10.45) / 0.95 := by
    rw [log_xStar_eq]
    rw [le_div_iff₀ (by norm_num : (0:ℝ) < 0.95)]
    linarith [log_ten_gt]
  have h5 : (5:ℝ) ≤ Real.sqrt 2 * ((Real.log xStar - 10.45) / 0.95) / 2 := by
    nlinarith [sqrt_two_gt]
  have htanh := tanh_mono _ _ h5
  have hpos : (0:ℝ) ≤ Real.sqrt (2 / Real.pi) *
      Real.exp (-((Real.log xStar - 10.45) / 0.95) ^ 2 / 2) := by positivity
  nlinarith [tanh_five_gt]

/-- C7: boundary behaviour of the cumulative operation. `app.py`'s exact
CDF is 0 at `x = 0` and tends to 1 at infinity; `App2.py`'s tanh-based cdf
tends to 0 as `x → 0⁺` (its value at exactly 0 is an IEEE artefact of
`log 0 = -inf`, which the real embedding renders as the one-sided limit)
and tends to 1 at infinity; both exceed 0.999 at the spec's probe
`10 · scale · exp(5σ)`. -/
theorem C7_theorem :
    scipy_lognorm_cdf 0 App.sigma (Real.exp App.mu) = 0 ∧
      Tendsto (fun x => scipy_lognorm_cdf x App.sigma (Real.exp App.mu)) atTop (nhds 1) ∧
      Tendsto (fun x => App2.lognorm_cdf x App2.sigma App2.scale)
        (nhdsWithin 0 (Ioi 0)) (nhds 0) ∧
      Tendsto (fun x => App2.lognorm_cdf x App2.sigma App2.scale) atTop (nhds 1) ∧
      0.999 < scipy_lognorm_cdf xStar App.sigma (Real.exp App.mu) ∧
      0.999 < App2.lognorm_cdf xStar App2.sigma App2.scale :=
  ⟨App_cdf_zero, App_cdf_tendsto_one, App2_cdf_tendsto_zero, App2_cdf_tendsto_one,
    App_cdf_xStar, App2_cdf_xStar⟩
